import Mathlib

/-!
Verification of the LLM backend-wrapper module (`util.py`).

The module wraps three LLM backends (hosted OpenAI API, Azure gateway, local
Ollama server) behind a uniform interface: `complete`, `stream_complete`,
`structured_complete`, `compute_cost`.  Each wrapper instance carries a
mutable `stats` dict and an optional log-file path.  We embed the wrapper
state and each operation as pure Lean functions; the backend response objects
(external collaborators) are embedded as structures holding exactly the
fields the code reads.  Python floats are embedded as rationals, Python
string slicing and substring tests are embedded on the character lists
underlying `String`.  File writes are embedded as the list of strings an
operation appends to its log file.
-/

/-- Usage counters, mirroring `self.stats = {"requests": 0, "input_tokens": 0,
"completion_tokens": 0}` in `ModelWrapper.__init__`. -/
structure UsageStats where
  requests : Nat
  input_tokens : Nat
  completion_tokens : Nat
  deriving DecidableEq, Repr

/-- Wrapper instance state: the fields of `ModelWrapper` that the embedded
operations read or write.  The backend `client` object is an external
collaborator and carries no state observed by the claims, so it is omitted. -/
structure ModelWrapper where
  model_name : String
  log_file : Option String
  stats : UsageStats
  deriving DecidableEq, Repr

/-- `ModelWrapper.__init__`: fresh state with zeroed counters.  The
`OpenAIModelWrapper`, `AzureModelWrapper` and `OllamaModelWrapper`
constructors all delegate here after building their backend client. -/
def ModelWrapper.init (model_name : String) (log_file : Option String) : ModelWrapper :=
  ⟨model_name, log_file, ⟨0, 0, 0⟩⟩

/-- Python's substring test `needle in hay` on strings, embedded on the
underlying character lists. -/
def strContains (needle hay : String) : Bool :=
  hay.data.tails.any (fun t => needle.data.isPrefixOf t)

/-- Python exceptions that `ModelWrapper.compute_cost` can raise:
`assertionError` from `assert output_token_cost is None` (the spec's
`InvalidArgumentError`), `valueError` from the unknown-model `raise`
(the spec's `UnknownModelError`), and `typeError` from evaluating
`self.stats["completion_tokens"] * None` when only the input price was
supplied (`int * NoneType` is a Python `TypeError`). -/
inductive CostError where
  | assertionError
  | valueError
  | typeError
  deriving DecidableEq, Repr

/-- `ModelWrapper.compute_cost`.  Python float arithmetic is embedded as
exact rational arithmetic.  The control flow mirrors the source: when
`input_token_cost is None`, assert the output price is also `None`, then look
prices up by substring matches on `model_name`; when the input price is given
but the output price is `None`, the final `total_cost` expression multiplies
the completion-token count by `None`, a `TypeError`. -/
def ModelWrapper.compute_cost (self : ModelWrapper)
    (input_token_cost output_token_cost : Option ℚ) : Except CostError ℚ :=
  match input_token_cost, output_token_cost with
  | none, some _ => .error .assertionError
  | none, none =>
    if strContains "gpt-4o" self.model_name then
      if strContains "mini" self.model_name then
        .ok ((self.stats.input_tokens : ℚ) * (0.000165 / 1000)
          + (self.stats.completion_tokens : ℚ) * (0.00066 / 1000))
      else
        if strContains "2024-08-06" self.model_name then
          .ok ((self.stats.input_tokens : ℚ) * (0.0025 / 1000)
            + (self.stats.completion_tokens : ℚ) * (0.010 / 1000))
        else
          .ok ((self.stats.input_tokens : ℚ) * (0.005 / 1000)
            + (self.stats.completion_tokens : ℚ) * (0.015 / 1000))
    else
      if strContains "gpt-35" self.model_name then
        .ok ((self.stats.input_tokens : ℚ) * (0.0005 / 1000)
          + (self.stats.completion_tokens : ℚ) * (0.0015 / 1000))
      else
        .error .valueError
  | some _, none => .error .typeError
  | some i, some o =>
    .ok ((self.stats.input_tokens : ℚ) * i + (self.stats.completion_tokens : ℚ) * o)

/-- One content part of a canonical (OpenAI-shape) message: either
`{"type": "text", "text": ...}` or
`{"type": "image_url", "image_url": {"url": ...}}`. -/
inductive ContentPart where
  | text (text : String)
  | image_url (url : String)
  deriving DecidableEq, Repr

/-- A canonical message: a role plus an ordered list of content parts. -/
structure Message where
  role : String
  content : List ContentPart
  deriving DecidableEq, Repr

/-- The response message object the code reads: `role` and `content`
(`response.choices[0].message` for the OpenAI-shape backends,
`response['message']` for Ollama). -/
structure ChatMessage where
  role : String
  content : String
  deriving DecidableEq, Repr

/-- The usage object of an OpenAI-shape response: the two fields the code
reads (`usage.prompt_tokens`, `usage.completion_tokens`). -/
structure Usage where
  prompt_tokens : Nat
  completion_tokens : Nat
  deriving DecidableEq, Repr

/-- An OpenAI-shape completion response, restricted to the fields the code
reads: `choices[0].message` and `usage`.  (The code indexes `choices[0]`
directly; we embed the first choice's message.) -/
structure ChatResponse where
  message : ChatMessage
  usage : Usage
  deriving DecidableEq, Repr

/-- One chunk of an OpenAI-shape stream, restricted to the field read by
`stream_wrapper`: `chunk.choices[0].delta.content`. -/
structure StreamChunk where
  delta_content : String
  deriving DecidableEq, Repr

/-- An Ollama `chat` response, restricted to the fields the code reads
(`message`, `eval_count`) plus the prompt-token count the backend also
reports but the code never reads. -/
structure OllamaResponse where
  message : ChatMessage
  eval_count : Nat
  prompt_eval_count : Nat
  deriving DecidableEq, Repr

/-- One chunk of an Ollama stream; the code reads
`chunk['message']['content']`. -/
structure OllamaChunk where
  message : ChatMessage
  deriving DecidableEq, Repr

/-- Python `json.dumps` escaping of one character inside a string literal
(the cases relevant here: quote, backslash and the common control
characters; every other character is emitted verbatim). -/
def jsonEscapeChar (c : Char) : List Char :=
  if c = '"' then ['\\', '"']
  else if c = '\\' then ['\\', '\\']
  else if c = '\n' then ['\\', 'n']
  else if c = '\r' then ['\\', 'r']
  else if c = '\t' then ['\\', 't']
  else [c]

/-- Escape a whole string for a JSON string literal. -/
def jsonEscape (s : String) : String :=
  String.mk (s.data.map jsonEscapeChar).flatten

/-- A JSON string literal. -/
def jsonStr (s : String) : String :=
  "\"" ++ jsonEscape s ++ "\""

/-- Python's `", ".join`, the item separator `json.dumps` uses by default. -/
def joinComma : List String → String
  | [] => ""
  | [x] => x
  | x :: y :: xs => x ++ ", " ++ joinComma (y :: xs)

/-- A JSON array literal, with `json.dumps`'s default separators. -/
def jsonArr (items : List String) : String :=
  "[" ++ joinComma items ++ "]"

/-- A JSON object literal over already-serialized field values, with
`json.dumps`'s default separators. -/
def jsonObj (fields : List (String × String)) : String :=
  "\x7b" ++ joinComma (fields.map (fun kv => jsonStr kv.1 ++ ": " ++ kv.2)) ++ "\x7d"

/-- `json.dumps` applied to the dict form of one canonical content part. -/
def ContentPart.toJson : ContentPart → String
  | .text t => jsonObj [("type", jsonStr "text"), ("text", jsonStr t)]
  | .image_url u =>
    jsonObj [("type", jsonStr "image_url"), ("image_url", jsonObj [("url", jsonStr u)])]

/-- `json.dumps` applied to the dict form of one canonical message. -/
def Message.toJson (m : Message) : String :=
  jsonObj [("role", jsonStr m.role), ("content", jsonArr (m.content.map ContentPart.toJson))]

/-- `json.dumps` applied to `response.choices[0].message.dict()`, restricted
to the fields embedded here. -/
def ChatMessage.toJson (m : ChatMessage) : String :=
  jsonObj [("role", jsonStr m.role), ("content", jsonStr m.content)]

/-- The serialized log entry of `ModelWrapper.complete` /
`structured_complete`: `json.dumps(messages.copy() + [response message dict])`. -/
def logRecord (messages : List Message) (resp : ChatMessage) : String :=
  jsonArr (messages.map Message.toJson ++ [resp.toJson])

/-- `ModelWrapper.complete`: returns the response text, the updated wrapper
state, and the list of strings written to the log file (empty when
`log_file` is `None`). -/
def ModelWrapper.complete (self : ModelWrapper) (messages : List Message)
    (response : ChatResponse) : String × ModelWrapper × List String :=
  let stats' : UsageStats :=
    ⟨self.stats.requests + 1,
     self.stats.input_tokens + response.usage.prompt_tokens,
     self.stats.completion_tokens + response.usage.completion_tokens⟩
  let writes : List String :=
    match self.log_file with
    | none => []
    | some _ => [logRecord messages response.message ++ ",\n"]
  (response.message.content, ⟨self.model_name, self.log_file, stats'⟩, writes)

/-- `stream_wrapper`: yields `response.choices[0].delta.content` for each
chunk of the stream. -/
def stream_wrapper (stream : List StreamChunk) : List String :=
  stream.map StreamChunk.delta_content

/-- `ModelWrapper.stream_complete`: issues the streaming request and returns
`stream_wrapper(response)`.  It touches neither `stats` nor the log file, so
the state is returned unchanged and the write list is empty. -/
def ModelWrapper.stream_complete (self : ModelWrapper) (messages : List Message)
    (stream : List StreamChunk) : List String × ModelWrapper × List String :=
  (stream_wrapper stream, self, [])

/-- `ModelWrapper.structured_complete`: same accounting and logging as
`complete`, but returns the parsed response message object. -/
def ModelWrapper.structured_complete (self : ModelWrapper) (messages : List Message)
    (response : ChatResponse) : ChatMessage × ModelWrapper × List String :=
  let stats' : UsageStats :=
    ⟨self.stats.requests + 1,
     self.stats.input_tokens + response.usage.prompt_tokens,
     self.stats.completion_tokens + response.usage.completion_tokens⟩
  let writes : List String :=
    match self.log_file with
    | none => []
    | some _ => [logRecord messages response.message ++ ",\n"]
  (response.message, ⟨self.model_name, self.log_file, stats'⟩, writes)

/-- The dict comprehension `{m['type']: m[m['type']] for m in msg_raw['content']}`
in `_ollama_reformat_messages`, restricted to the two keys that occur
(`text`, `image_url`); a later part of the same type overwrites an earlier
one, as in a Python dict comprehension. -/
def contentTypeDict (parts : List ContentPart) : Option String × Option String :=
  parts.foldl (fun acc p =>
    match p with
    | .text t => (some t, acc.2)
    | .image_url u => (acc.1, some u)) (none, none)

/-- The Ollama-shape (local-shape) message built by
`_ollama_reformat_messages`: role, single content string, optional image
list. -/
structure OllamaMessage where
  role : String
  content : String
  images : Option (List String)
  deriving DecidableEq, Repr

/-- The per-message body of `OllamaModelWrapper._ollama_reformat_messages`:
`content` is the text part's value (`msg['text']`, a `KeyError` — embedded as
`none` — when no text part exists); when an `image_url` part is present, the
sole image is `msg['image_url']['url'][22:]`, i.e. the url with its first 22
characters dropped. -/
def OllamaModelWrapper.ollama_reformat_message (msg_raw : Message) : Option OllamaMessage :=
  let msg := contentTypeDict msg_raw.content
  match msg.1 with
  | none => none
  | some t => some ⟨msg_raw.role, t, msg.2.map (fun u => [String.mk (u.data.drop 22)])⟩

/-- `OllamaModelWrapper._ollama_reformat_messages`: the loop over all
messages; the first `KeyError` aborts the whole call. -/
def OllamaModelWrapper.ollama_reformat_messages (messages : List Message) :
    Option (List OllamaMessage) :=
  messages.mapM OllamaModelWrapper.ollama_reformat_message

/-- A Python/JSON value, for the dicts `_openai_reformat_messages`
manipulates: string, list or dict. -/
inductive PyVal where
  | str : String → PyVal
  | arr : List PyVal → PyVal
  | obj : List (String × PyVal) → PyVal

/-- Python dict lookup `d[k]` on an association list (keys are unique in all
dicts considered here). -/
def dictGet (k : String) : List (String × PyVal) → Option PyVal
  | [] => none
  | (k', v) :: rest => if k' = k then some v else dictGet k rest

/-- `OllamaModelWrapper._openai_reformat_messages`: builds
`{"role": ollama_msg["role"], "content": {"type": "text", "text":
ollama_msg["content"]}}`; a missing key (`KeyError`) is embedded as `none`.
Note the new `content` is a single dict, not a list of parts. -/
def OllamaModelWrapper.openai_reformat_messages (ollama_msg : List (String × PyVal)) :
    Option (List (String × PyVal)) :=
  match dictGet "role" ollama_msg, dictGet "content" ollama_msg with
  | some r, some c =>
    some [("role", r), ("content", PyVal.obj [("type", PyVal.str "text"), ("text", c)])]
  | _, _ => none

/-- Serialization of the dict `_openai_reformat_messages` produces for the
response message, as appended to the Ollama log record. -/
def ollamaLogResponseJson (m : ChatMessage) : String :=
  jsonObj [("role", jsonStr m.role),
    ("content", jsonObj [("type", jsonStr "text"), ("text", jsonStr m.content)])]

/-- The serialized log entry of `OllamaModelWrapper.complete`. -/
def ollamaLogRecord (messages : List Message) (resp : ChatMessage) : String :=
  jsonArr (messages.map Message.toJson ++ [ollamaLogResponseJson resp])

/-- `OllamaModelWrapper.complete`: reformats the messages first (a `KeyError`
there — `none` — happens before any stats update), then adds
`response['eval_count']` to BOTH token counters, optionally appends the log
record, and returns `response['message']['content']`. -/
def OllamaModelWrapper.complete (self : ModelWrapper) (messages : List Message)
    (response : OllamaResponse) : Option (String × ModelWrapper × List String) :=
  match OllamaModelWrapper.ollama_reformat_messages messages with
  | none => none
  | some _ =>
    let stats' : UsageStats :=
      ⟨self.stats.requests + 1,
       self.stats.input_tokens + response.eval_count,
       self.stats.completion_tokens + response.eval_count⟩
    let writes : List String :=
      match self.log_file with
      | none => []
      | some _ => [ollamaLogRecord messages response.message ++ ",\n"]
    some (response.message.content, ⟨self.model_name, self.log_file, stats'⟩, writes)

/-- `OllamaModelWrapper.stream_complete`: a generator yielding
`chunk['message']['content']`; it never touches `stats` or the log file, so
the state is unchanged and the write list empty (the yielded fragments are
`none` when the initial reformat raises). -/
def OllamaModelWrapper.stream_complete (self : ModelWrapper) (messages : List Message)
    (stream : List OllamaChunk) : Option (List String) × ModelWrapper × List String :=
  (match OllamaModelWrapper.ollama_reformat_messages messages with
   | none => none
   | some _ => some (stream.map (fun c => c.message.content)), self, [])

/-- One call made on a wrapper instance, together with the backend response
(or stream) it received: the five operations under study. -/
inductive CallEvent where
  | apiComplete (messages : List Message) (response : ChatResponse)
  | apiStructured (messages : List Message) (response : ChatResponse)
  | apiStream (messages : List Message) (stream : List StreamChunk)
  | ollamaComplete (messages : List Message) (response : OllamaResponse)
  | ollamaStream (messages : List Message) (stream : List OllamaChunk)

/-- The wrapper state after one call.  A failed Ollama reformat propagates an
exception to the caller before any stats update, so the state is unchanged
in that case. -/
def stepState (self : ModelWrapper) : CallEvent → ModelWrapper
  | .apiComplete msgs r => (self.complete msgs r).2.1
  | .apiStructured msgs r => (self.structured_complete msgs r).2.1
  | .apiStream msgs st => (self.stream_complete msgs st).2.1
  | .ollamaComplete msgs r =>
    match OllamaModelWrapper.complete self msgs r with
    | some out => out.2.1
    | none => self
  | .ollamaStream msgs st => (OllamaModelWrapper.stream_complete self msgs st).2.1

/-- The wrapper state after a sequence of calls. -/
def runCalls (self : ModelWrapper) (events : List CallEvent) : ModelWrapper :=
  events.foldl stepState self

/-- The token deltas a completed (non-streaming, non-failing) call adds to
`(input_tokens, completion_tokens)`, as reported by the backend: `(prompt_tokens,
completion_tokens)` for the OpenAI-shape backends, `(eval_count, eval_count)`
for Ollama; `none` for streaming calls and for an Ollama call whose reformat
raises. -/
def completedDelta : CallEvent → Option (Nat × Nat)
  | .apiComplete _ r => some (r.usage.prompt_tokens, r.usage.completion_tokens)
  | .apiStructured _ r => some (r.usage.prompt_tokens, r.usage.completion_tokens)
  | .ollamaComplete msgs r =>
    match OllamaModelWrapper.ollama_reformat_messages msgs with
    | some _ => some (r.eval_count, r.eval_count)
    | none => none
  | .apiStream _ _ => none
  | .ollamaStream _ _ => none

/-- Number of completed `complete`/`structured_complete` calls in a sequence. -/
def countCompleted (events : List CallEvent) : Nat :=
  (events.filterMap completedDelta).length

/-- Sum of the backend-reported input-token deltas of the completed calls. -/
def totalInputDelta (events : List CallEvent) : Nat :=
  ((events.filterMap completedDelta).map Prod.fst).sum

/-- Sum of the backend-reported completion-token deltas of the completed
calls. -/
def totalCompletionDelta (events : List CallEvent) : Nat :=
  ((events.filterMap completedDelta).map Prod.snd).sum

/-- Split a character list at newlines (each `'\n'` terminates a line). -/
def breakLines : List Char → List (List Char)
  | [] => [[]]
  | c :: cs =>
    if c = '\n' then [] :: breakLines cs
    else
      match breakLines cs with
      | [] => [[c]]
      | l :: ls => (c :: l) :: ls

/-- Drop the final chunk produced by `breakLines` when it is empty: a file
ending in a newline has no final empty line. -/
def dropFinalEmpty : List (List Char) → List (List Char)
  | [] => []
  | [l] => if l = [] then [] else [l]
  | l :: ls => l :: dropFinalEmpty ls

/-- The lines of a text file, as Python's `splitlines` sees them: a trailing
newline does not open a final empty line. -/
def fileLines (s : String) : List String :=
  (dropFinalEmpty (breakLines s.data)).map String.mk

/-- The content of a file after appending a list of writes (each `f.write`). -/
def appendWrites (file : String) (writes : List String) : String :=
  writes.foldl (fun acc w => acc ++ w) file

/-- A string free of raw newline characters. -/
def noNl (s : String) : Prop := '\n' ∉ s.data

instance noNlDecidable (s : String) : Decidable (noNl s) :=
  inferInstanceAs (Decidable ('\n' ∉ s.data))

/-- Claim C2: with both prices supplied, `compute_cost` returns exactly
`stats.input_tokens * p_in + stats.completion_tokens * p_out`,
for every wrapper state (hence independent of the bound model name). -/
theorem compute_cost_both_prices (self : ModelWrapper) (pIn pOut : ℚ) :
    self.compute_cost (some pIn) (some pOut) =
      .ok ((self.stats.input_tokens : ℚ) * pIn
        + (self.stats.completion_tokens : ℚ) * pOut) := rfl

/-- Claim C3: with no explicit prices, model `"gpt-4o-mini"` uses the pair
`(0.000165/1000, 0.00066/1000)`, model `"gpt-35-turbo"` uses
`(0.0005/1000, 0.0015/1000)`, and the unrecognized `"foo-bar"` fails with
the unknown-model error, for every usage-counter state. -/
theorem compute_cost_lookup :
    (∀ s : UsageStats, ModelWrapper.compute_cost ⟨"gpt-4o-mini", none, s⟩ none none =
      .ok ((s.input_tokens : ℚ) * (0.000165 / 1000)
        + (s.completion_tokens : ℚ) * (0.00066 / 1000)))
    ∧ (∀ s : UsageStats, ModelWrapper.compute_cost ⟨"gpt-35-turbo", none, s⟩ none none =
      .ok ((s.input_tokens : ℚ) * (0.0005 / 1000)
        + (s.completion_tokens : ℚ) * (0.0015 / 1000)))
    ∧ (∀ s : UsageStats, ModelWrapper.compute_cost ⟨"foo-bar", none, s⟩ none none =
      .error CostError.valueError) := by
  refine ⟨fun s => ?_, fun s => ?_, fun s => ?_⟩ <;>
    simp only [ModelWrapper.compute_cost] <;>
      norm_num [show strContains "gpt-4o" "gpt-4o-mini" = true from rfl,
        show strContains "mini" "gpt-4o-mini" = true from rfl,
        show strContains "gpt-4o" "gpt-35-turbo" = false from rfl,
        show strContains "gpt-35" "gpt-35-turbo" = true from rfl,
        show strContains "gpt-4o" "foo-bar" = false from rfl,
        show strContains "gpt-35" "foo-bar" = false from rfl]

/-- Claim C4 counterexample: with only the input price supplied the call does
not fail with the argument assertion (the spec's `InvalidArgumentError`); it
fails with the `TypeError` raised by `completion_tokens * None`. -/
theorem compute_cost_one_price_counterexample :
    ModelWrapper.compute_cost ⟨"gpt-4o", none, ⟨0, 0, 0⟩⟩ (some 1) none =
      .error CostError.typeError
    ∧ ModelWrapper.compute_cost ⟨"gpt-4o", none, ⟨0, 0, 0⟩⟩ (some 1) none ≠
      .error CostError.assertionError := by
  refine ⟨rfl, ?_⟩
  simp [ModelWrapper.compute_cost]

/-- Claim C4 (amended): supplying only the output price fails with the
argument assertion (`InvalidArgumentError`); supplying only the input price
instead fails with the `TypeError` from multiplying the completion-token
count by the missing output price.  Holds for every wrapper state. -/
theorem compute_cost_one_price (self : ModelWrapper) (p : ℚ) :
    self.compute_cost none (some p) = .error CostError.assertionError
    ∧ self.compute_cost (some p) none = .error CostError.typeError :=
  ⟨rfl, rfl⟩

/-- Claim C5: for both wrapper variants and every input, `stream_complete`
returns the wrapper state unchanged (so every `UsageStats` field is
unchanged) and writes nothing to the log, whatever `log_file` is. -/
theorem stream_complete_frame :
    (∀ (self : ModelWrapper) (messages : List Message) (stream : List StreamChunk),
      (self.stream_complete messages stream).2.1 = self
      ∧ (self.stream_complete messages stream).2.2 = [])
    ∧ (∀ (self : ModelWrapper) (messages : List Message) (stream : List OllamaChunk),
      (OllamaModelWrapper.stream_complete self messages stream).2.1 = self
      ∧ (OllamaModelWrapper.stream_complete self messages stream).2.2 = []) :=
  ⟨fun _ _ _ => ⟨rfl, rfl⟩, fun _ _ _ => ⟨rfl, rfl⟩⟩

/-- Claim C7: on a fresh hosted-API wrapper, `complete` with one user message
`[Text("hi")]` against a stub response with content `"hello"` and usage
`{prompt_tokens: 3, completion_tokens: 1}` returns `"hello"` and leaves
`stats = {requests: 1, input_tokens: 3, completion_tokens: 1}`. -/
theorem complete_scenario :
    (ModelWrapper.complete (ModelWrapper.init "gpt-4o" none)
        [⟨"user", [ContentPart.text "hi"]⟩] ⟨⟨"assistant", "hello"⟩, ⟨3, 1⟩⟩).1 = "hello"
    ∧ (ModelWrapper.complete (ModelWrapper.init "gpt-4o" none)
        [⟨"user", [ContentPart.text "hi"]⟩] ⟨⟨"assistant", "hello"⟩, ⟨3, 1⟩⟩).2.1.stats
      = ⟨1, 3, 1⟩ :=
  ⟨rfl, rfl⟩

theorem newline_not_mem_jsonEscapeChar (c : Char) : '\n' ∉ jsonEscapeChar c := by
  unfold jsonEscapeChar
  split
  · decide
  · split
    · decide
    · split
      · decide
      · split
        · decide
        · split
          · decide
          · rename_i h1 h2 h3 h4 h5
            simp only [List.mem_singleton]
            exact fun e => h3 e.symm

theorem noNl_append {a b : String} (ha : noNl a) (hb : noNl b) : noNl (a ++ b) := by
  simp only [noNl, String.data_append, List.mem_append]
  rintro (h | h)
  · exact ha h
  · exact hb h

theorem noNl_jsonEscape (s : String) : noNl (jsonEscape s) := by
  show '\n' ∉ (s.data.map jsonEscapeChar).flatten
  simp only [List.mem_flatten, List.mem_map]
  rintro ⟨l, ⟨c, _, rfl⟩, hmem⟩
  exact newline_not_mem_jsonEscapeChar c hmem

theorem noNl_jsonStr (s : String) : noNl (jsonStr s) :=
  noNl_append (noNl_append (by decide) (noNl_jsonEscape s)) (by decide)

theorem noNl_joinComma {xs : List String} (h : ∀ x ∈ xs, noNl x) : noNl (joinComma xs) := by
  induction xs with
  | nil => decide
  | cons x xs ih =>
    cases xs with
    | nil => simpa [joinComma] using h x (by simp)
    | cons y ys =>
      rw [show joinComma (x :: y :: ys) = x ++ ", " ++ joinComma (y :: ys) from rfl]
      refine noNl_append (noNl_append (h x (by simp)) (by decide)) (ih ?_)
      intro a ha
      exact h a (List.mem_cons_of_mem x ha)

theorem noNl_jsonArr {items : List String} (h : ∀ x ∈ items, noNl x) : noNl (jsonArr items) :=
  noNl_append (noNl_append (by decide) (noNl_joinComma h)) (by decide)

theorem noNl_jsonObj {fields : List (String × String)} (h : ∀ kv ∈ fields, noNl kv.2) :
    noNl (jsonObj fields) := by
  refine noNl_append (noNl_append (by decide) (noNl_joinComma ?_)) (by decide)
  intro x hx
  simp only [List.mem_map] at hx
  obtain ⟨kv, hkv, rfl⟩ := hx
  exact noNl_append (noNl_append (noNl_jsonStr kv.1) (by decide)) (h kv hkv)

theorem noNl_ContentPart_toJson (p : ContentPart) : noNl p.toJson := by
  cases p with
  | text t =>
    refine noNl_jsonObj ?_
    intro kv hkv
    simp only [List.mem_cons, List.not_mem_nil, or_false] at hkv
    rcases hkv with rfl | rfl
    · exact noNl_jsonStr _
    · exact noNl_jsonStr _
  | image_url u =>
    refine noNl_jsonObj ?_
    intro kv hkv
    simp only [List.mem_cons, List.not_mem_nil, or_false] at hkv
    rcases hkv with rfl | rfl
    · exact noNl_jsonStr _
    · refine noNl_jsonObj ?_
      intro kv2 hkv2
      simp only [List.mem_cons, List.not_mem_nil, or_false] at hkv2
      rcases hkv2 with rfl
      exact noNl_jsonStr _

theorem noNl_Message_toJson (m : Message) : noNl m.toJson := by
  refine noNl_jsonObj ?_
  intro kv hkv
  simp only [List.mem_cons, List.not_mem_nil, or_false] at hkv
  rcases hkv with rfl | rfl
  · exact noNl_jsonStr _
  · refine noNl_jsonArr ?_
    intro x hx
    simp only [List.mem_map] at hx
    obtain ⟨p, _, rfl⟩ := hx
    exact noNl_ContentPart_toJson p

theorem noNl_ChatMessage_toJson (m : ChatMessage) : noNl m.toJson := by
  refine noNl_jsonObj ?_
  intro kv hkv
  simp only [List.mem_cons, List.not_mem_nil, or_false] at hkv
  rcases hkv with rfl | rfl
  · exact noNl_jsonStr _
  · exact noNl_jsonStr _

theorem noNl_logRecord (messages : List Message) (resp : ChatMessage) :
    noNl (logRecord messages resp) := by
  refine noNl_jsonArr ?_
  intro x hx
  simp only [List.mem_append, List.mem_map, List.mem_singleton] at hx
  rcases hx with ⟨m, _, rfl⟩ | rfl
  · exact noNl_Message_toJson m
  · exact noNl_ChatMessage_toJson resp

theorem breakLines_append (l cs r : List Char) (rs : List (List Char))
    (hl : '\n' ∉ l) (h : breakLines cs = r :: rs) :
    breakLines (l ++ cs) = (l ++ r) :: rs := by
  revert hl
  induction l with
  | nil => intro _; simpa using h
  | cons c l ih =>
    intro hl
    simp only [List.mem_cons, not_or] at hl
    obtain ⟨hc, hl'⟩ := hl
    have hrec := ih hl'
    show breakLines (c :: (l ++ cs)) = ((c :: l) ++ r) :: rs
    unfold breakLines
    rw [if_neg (fun e => hc e.symm)]
    rw [hrec]
    simp

theorem fileLines_record (s : String) (hs : noNl s) :
    fileLines (s ++ ",\n") = [s ++ ","] := by
  have h0 : breakLines [',', '\n'] = [','] :: [[]] := rfl
  have h1 : (s ++ ",\n").data = s.data ++ [',', '\n'] := by
    rw [String.data_append]
  have h2 : breakLines ((s ++ ",\n").data) = (s.data ++ [',']) :: [[]] := by
    rw [h1]
    exact breakLines_append s.data [',', '\n'] [','] [[]] hs h0
  unfold fileLines
  rw [h2]
  show [String.mk (s.data ++ [','])] = [s ++ ","]
  have h3 : (s ++ ",").data = s.data ++ [','] := by rw [String.data_append]
  rw [← h3]

/-- Claim C6: with a log file configured, one `complete` call appends exactly
`json(inputMessages + [responseMessage]) + ",\n"` to the log; an initially
empty log file then contains exactly one line, equal to that JSON record
followed by a comma.  With no log file configured, `complete` writes
nothing. -/
theorem complete_log_contract :
    (∀ (n p : String) (s : UsageStats) (messages : List Message) (response : ChatResponse),
      (ModelWrapper.complete ⟨n, some p, s⟩ messages response).2.2
        = [logRecord messages response.message ++ ",\n"]
      ∧ fileLines (appendWrites "" (ModelWrapper.complete ⟨n, some p, s⟩ messages response).2.2)
        = [logRecord messages response.message ++ ","])
    ∧ ∀ (n : String) (s : UsageStats) (messages : List Message) (response : ChatResponse),
      (ModelWrapper.complete ⟨n, none, s⟩ messages response).2.2 = [] := by
  constructor
  · intro n p s messages response
    refine ⟨rfl, ?_⟩
    show fileLines ("" ++ (logRecord messages response.message ++ ",\n")) = _
    have he : "" ++ (logRecord messages response.message ++ ",\n")
        = logRecord messages response.message ++ ",\n" := by
      apply String.ext
      rw [String.data_append, String.data_append]
      show [] ++ _ = _
      rw [List.nil_append]
    rw [he]
    exact fileLines_record _ (noNl_logRecord messages response.message)
  · intro n s messages response
    rfl

/-- Claim C8 counterexample: applying `_openai_reformat_messages` to a
message already in canonical shape (role `"user"`, content a list with one
text part) is not a no-op: the content list gets re-wrapped. -/
theorem openai_reformat_not_noop :
    OllamaModelWrapper.openai_reformat_messages
        [("role", PyVal.str "user"),
         ("content", PyVal.arr [PyVal.obj [("type", PyVal.str "text"), ("text", PyVal.str "hi")]])]
      ≠ some
        [("role", PyVal.str "user"),
         ("content", PyVal.arr [PyVal.obj [("type", PyVal.str "text"), ("text", PyVal.str "hi")]])] := by
  simp [OllamaModelWrapper.openai_reformat_messages, dictGet]

/-- Claim C8 (amended): `_openai_reformat_messages` preserves the role but
replaces the content of an already-canonical message (a part list) by the
single dict `{"type": "text", "text": <old content>}`; the result therefore
always differs from the input in its `content` value. -/
theorem openai_reformat_wraps_content (r : PyVal) (parts : List PyVal) :
    OllamaModelWrapper.openai_reformat_messages [("role", r), ("content", PyVal.arr parts)]
      = some [("role", r),
          ("content", PyVal.obj [("type", PyVal.str "text"), ("text", PyVal.arr parts)])]
    ∧ (OllamaModelWrapper.openai_reformat_messages [("role", r), ("content", PyVal.arr parts)]).bind
        (dictGet "content")
      ≠ dictGet "content" [("role", r), ("content", PyVal.arr parts)] := by
  constructor
  · simp [OllamaModelWrapper.openai_reformat_messages, dictGet]
  · simp [OllamaModelWrapper.openai_reformat_messages, dictGet]

/-- Claim C9 counterexample: for the MIME type `image/jpeg` the data-URL
prefix `data:image/jpeg;base64,` is 23 characters long, but the code strips
a fixed 22, so the sole image of the local-shape message is `",AAAA"`, not
the base64 payload `"AAAA"`. -/
theorem ollama_image_prefix_counterexample :
    OllamaModelWrapper.ollama_reformat_message
        ⟨"user", [ContentPart.text "look", ContentPart.image_url "data:image/jpeg;base64,AAAA"]⟩
      = some ⟨"user", "look", some [",AAAA"]⟩
    ∧ OllamaModelWrapper.ollama_reformat_message
        ⟨"user", [ContentPart.text "look", ContentPart.image_url "data:image/jpeg;base64,AAAA"]⟩
      ≠ some ⟨"user", "look", some ["AAAA"]⟩ := by
  constructor
  · rfl
  · decide

/-- Claim C9 (amended): the local-shape message carries as its sole image the
ImageRef url with its first 22 characters dropped; this equals the base64
payload exactly when the `data:<mime>;base64,` prefix is 22 characters long,
i.e. when the MIME type has 9 characters (such as `image/png`). -/
theorem ollama_image_strip (role text mime payload : String) (h : mime.length = 9) :
    OllamaModelWrapper.ollama_reformat_message
        ⟨role, [ContentPart.text text,
          ContentPart.image_url ("data:" ++ mime ++ ";base64," ++ payload)]⟩
      = some ⟨role, text, some [payload]⟩ := by
  have hd : ("data:" ++ mime ++ ";base64," ++ payload).data
      = ("data:".data ++ mime.data ++ ";base64,".data) ++ payload.data := by
    rw [String.data_append, String.data_append, String.data_append]
  have hlen : ("data:".data ++ mime.data ++ ";base64,".data).length = 22 := by
    have hm : mime.data.length = 9 := h
    simp [List.length_append, hm]
  have hdrop : (("data:" ++ mime ++ ";base64," ++ payload).data).drop 22 = payload.data := by
    rw [hd]
    exact List.drop_left' hlen
  show Option.some (OllamaMessage.mk role text (Option.some
      [String.mk (List.drop 22 ("data:" ++ mime ++ ";base64," ++ payload).data)]))
    = Option.some (OllamaMessage.mk role text (Option.some [payload]))
  rw [hdrop]

/-- Witness for `ollama_image_strip` at the MIME type `image/png` (9
characters) and payload `"QUJD"`. -/
theorem ollama_image_strip_witness :
    ("image/png" : String).length = 9
    ∧ OllamaModelWrapper.ollama_reformat_message
        ⟨"user", [ContentPart.text "see",
          ContentPart.image_url ("data:" ++ "image/png" ++ ";base64," ++ "QUJD")]⟩
      = some ⟨"user", "see", some ["QUJD"]⟩ :=
  ⟨by decide, ollama_image_strip "user" "see" "image/png" "QUJD" (by decide)⟩

/-- Claim C10: whenever an `OllamaModelWrapper.complete` call completes, it
increments `input_tokens` and `completion_tokens` by the same value, the
response's `eval_count` (so `input_tokens` does not track the prompt token
count `prompt_eval_count` for this variant). -/
theorem ollama_complete_token_accounting (self : ModelWrapper) (messages : List Message)
    (response : OllamaResponse) (out : String) (self' : ModelWrapper) (writes : List String)
    (h : OllamaModelWrapper.complete self messages response = some (out, self', writes)) :
    self'.stats.input_tokens = self.stats.input_tokens + response.eval_count
    ∧ self'.stats.completion_tokens = self.stats.completion_tokens + response.eval_count := by
  unfold OllamaModelWrapper.complete at h
  cases hr : OllamaModelWrapper.ollama_reformat_messages messages with
  | none =>
    rw [hr] at h
    cases h
  | some ms =>
    rw [hr] at h
    simp only [Option.some.injEq, Prod.mk.injEq] at h
    obtain ⟨-, h2, -⟩ := h
    subst h2
    exact ⟨rfl, rfl⟩

/-- Witness for `ollama_complete_token_accounting` on a concrete call whose
reformat succeeds. -/
theorem ollama_complete_token_accounting_witness :
    OllamaModelWrapper.complete (ModelWrapper.init "minicpm-v" none)
        [⟨"user", [ContentPart.text "hi"]⟩] ⟨⟨"assistant", "ok"⟩, 5, 7⟩
      = some ("ok", ⟨"minicpm-v", none, ⟨1, 5, 5⟩⟩, [])
    ∧ ((⟨"minicpm-v", none, ⟨1, 5, 5⟩⟩ : ModelWrapper).stats.input_tokens
        = (ModelWrapper.init "minicpm-v" none).stats.input_tokens + 5
      ∧ (⟨"minicpm-v", none, ⟨1, 5, 5⟩⟩ : ModelWrapper).stats.completion_tokens
        = (ModelWrapper.init "minicpm-v" none).stats.completion_tokens + 5) :=
  ⟨by decide,
    ollama_complete_token_accounting (ModelWrapper.init "minicpm-v" none)
      [⟨"user", [ContentPart.text "hi"]⟩] ⟨⟨"assistant", "ok"⟩, 5, 7⟩ "ok"
      ⟨"minicpm-v", none, ⟨1, 5, 5⟩⟩ [] (by decide)⟩

theorem runCalls_stats (events : List CallEvent) : ∀ (self : ModelWrapper),
    (runCalls self events).stats.requests = self.stats.requests + countCompleted events
    ∧ (runCalls self events).stats.input_tokens
      = self.stats.input_tokens + totalInputDelta events
    ∧ (runCalls self events).stats.completion_tokens
      = self.stats.completion_tokens + totalCompletionDelta events := by
  induction events with
  | nil =>
    intro self
    simp [runCalls, countCompleted, totalInputDelta, totalCompletionDelta, List.filterMap]
  | cons e evs ih =>
    intro self
    have hrun : runCalls self (e :: evs) = runCalls (stepState self e) evs := rfl
    obtain ⟨h1, h2, h3⟩ := ih (stepState self e)
    rw [hrun, h1, h2, h3]
    cases e with
    | apiComplete msgs r =>
      simp only [stepState, ModelWrapper.complete, countCompleted, totalInputDelta,
        totalCompletionDelta, completedDelta, List.filterMap_cons, List.length_cons,
        List.map_cons, List.sum_cons]
      refine ⟨by omega, by omega, by omega⟩
    | apiStructured msgs r =>
      simp only [stepState, ModelWrapper.structured_complete, countCompleted, totalInputDelta,
        totalCompletionDelta, completedDelta, List.filterMap_cons, List.length_cons,
        List.map_cons, List.sum_cons]
      refine ⟨by omega, by omega, by omega⟩
    | apiStream msgs st =>
      simp [stepState, ModelWrapper.stream_complete, countCompleted, totalInputDelta,
        totalCompletionDelta, completedDelta, List.filterMap_cons]
    | ollamaComplete msgs r =>
      cases hr : OllamaModelWrapper.ollama_reformat_messages msgs with
      | none =>
        simp [stepState, OllamaModelWrapper.complete, hr, countCompleted, totalInputDelta,
          totalCompletionDelta, completedDelta, List.filterMap_cons]
      | some ms =>
        simp only [stepState, OllamaModelWrapper.complete, hr, countCompleted, totalInputDelta,
          totalCompletionDelta, completedDelta, List.filterMap_cons, List.length_cons,
          List.map_cons, List.sum_cons]
        refine ⟨by omega, by omega, by omega⟩
    | ollamaStream msgs st =>
      simp [stepState, OllamaModelWrapper.stream_complete, countCompleted, totalInputDelta,
        totalCompletionDelta, completedDelta, List.filterMap_cons]

/-- Claim C1: starting from a fresh wrapper, after any sequence of calls the
request counter equals the number of completed `complete`/
`structured_complete` calls (streaming calls excluded), and each token
counter equals the sum of the per-call deltas reported by the backend. -/
theorem usage_accounting (model_name : String) (log_file : Option String)
    (events : List CallEvent) :
    (runCalls (ModelWrapper.init model_name log_file) events).stats
      = ⟨countCompleted events, totalInputDelta events, totalCompletionDelta events⟩ := by
  obtain ⟨h1, h2, h3⟩ := runCalls_stats events (ModelWrapper.init model_name log_file)
  have hext : ∀ (u v : UsageStats), u.requests = v.requests →
      u.input_tokens = v.input_tokens → u.completion_tokens = v.completion_tokens → u = v := by
    intro u v hu hi hc
    cases u
    cases v
    simp_all
  apply hext
  · rw [h1]; simp [ModelWrapper.init]
  · rw [h2]; simp [ModelWrapper.init]
  · rw [h3]; simp [ModelWrapper.init]
